import Mathlib

/-!
Verification of the packaging descriptor `setup.py` of disentanglement_lib.

The descriptor is a single declarative `setup(...)` call. We embed each
literal argument of that call as a Lean definition and prove the spec's
claims about the manifest.
-/

namespace DisentanglementLib

/-- The `name` argument of the `setup` call (setup.py line 22). -/
def packageName : String := "disentanglement_lib"

/-- The `version` argument of the `setup` call (setup.py line 23). -/
def version : String := "1.5"

/-- The `license` argument of the `setup` call (setup.py line 28). -/
def license : String := "Apache 2.0"

/-- The `scripts` argument of the `setup` call (setup.py lines 31-49),
in source order. -/
def scripts : List String :=
  [ "bin/dlib_aggregate_results"
  , "bin/dlib_reproduce"
  , "bin/dlib_reason"
  , "bin/dlib_visualize_dataset"
  , "bin/dlib_evaluate"
  , "bin/dlib_udr"
  , "bin/dlib_postprocess"
  , "bin/dlib_train"
  , "bin/dlib_visualize_dataset"
  , "bin/dlib_visualize_model"
  , "bin/dlib_tests"
  , "bin/dlib_download_data"
  , "bin/dlib_reproduce_jmlr"
  , "bin/dlib_reproduce_semi_supervised"
  , "bin/dlib_reproduce_weakly_supervised"
  , "bin/dlib_train_semi_supervised"
  , "bin/dlib_train_weakly_supervised" ]

/-- The `install_requires` argument of the `setup` call
(setup.py lines 50-65), in source order. -/
def install_requires : List String :=
  [ "future==0.17.1"
  , "imageio==2.5.0"
  , "gin-config==0.1.4"
  , "scikit-learn==0.20.3"
  , "numpy==1.16.3"
  , "pandas==0.24.2"
  , "simplejson==3.16.0"
  , "six==1.12.0"
  , "matplotlib==3.0.3"
  , "Pillow==6.0.0"
  , "scipy==1.2.1"
  , "tensorflow-hub==0.4.0"
  , "tensorflow_probability==0.7.0"
  , "seaborn==0.11.0" ]

/-- The `extras_require` argument of the `setup` call
(setup.py lines 66-69), as an association list in source order. -/
def extras_require : List (String × List String) :=
  [ ("tf", ["tensorflow==1.14"])
  , ("tf_gpu", ["tensorflow-gpu==1.14"]) ]

/-- The `classifiers` argument of the `setup` call (setup.py lines 70-76). -/
def classifiers : List String :=
  [ "Development Status :: 4 - Beta"
  , "Intended Audience :: Developers"
  , "Intended Audience :: Science/Research"
  , "License :: OSI Approved :: Apache Software License"
  , "Topic :: Scientific/Engineering :: Artificial Intelligence" ]

/-- Split a character list at the first occurrence of the two-character
separator `==`, returning the part before and the part after it. -/
def splitAtEqEq : List Char → Option (List Char × List Char)
  | [] => none
  | '=' :: '=' :: rest => some ([], rest)
  | c :: rest =>
      match splitAtEqEq rest with
      | some (before, after) => some (c :: before, after)
      | none => none

/-- Characters that may not occur in the name or version part of an exact
version pin: they would make the requirement a range, wildcard, or
otherwise non-exact constraint. -/
def constraintChars : List Char := ['=', '<', '>', '~', '*', ',', '!']

/-- A requirement string is an exact version pin when it has the form
`name==version` with a non-empty name, a non-empty version, and no range,
wildcard, or comparison characters in either part. -/
def isExactPin (s : String) : Bool :=
  match splitAtEqEq s.data with
  | none => false
  | some (n, v) =>
      !n.isEmpty && !v.isEmpty &&
      n.all (fun c => !constraintChars.contains c) &&
      v.all (fun c => !constraintChars.contains c)

/-- The package named by a requirement string: the part before the first
`==` separator, when there is one. -/
def pinName (s : String) : Option String :=
  match splitAtEqEq s.data with
  | none => none
  | some (n, _) => some (String.mk n)

/-- Every requirement string declared by the `setup` call: the
`install_requires` list together with every value of `extras_require`. -/
def allDeclaredDeps : List String :=
  install_requires ++ (extras_require.map Prod.snd).flatten

/-- The full manifest produced by evaluating the descriptor. The
`packages` field is the one argument computed from the environment
(`find_packages()` scans the source tree); every other field is a
literal. -/
structure Manifest where
  name : String
  version : String
  license : String
  packages : List String
  scripts : List String
  install_requires : List String
  extras_require : List (String × List String)
  classifiers : List String

/-- Evaluating the `setup` call: `pkgs` stands for the result of
`find_packages()`, the only environment-dependent argument; all other
fields are the literals from the source. -/
def manifest (pkgs : List String) : Manifest :=
  { name := packageName
  , version := version
  , license := license
  , packages := pkgs
  , scripts := scripts
  , install_requires := install_requires
  , extras_require := extras_require
  , classifiers := classifiers }

/-- The 16 console-script names as the spec's interface section lists
them (spec section 6). Spec-side definition, to be compared with the
source's `scripts` list. -/
def specConsoleScriptNames : List String :=
  [ "dlib_aggregate_results"
  , "dlib_reproduce"
  , "dlib_reason"
  , "dlib_visualize_dataset"
  , "dlib_evaluate"
  , "dlib_udr"
  , "dlib_postprocess"
  , "dlib_train"
  , "dlib_visualize_model"
  , "dlib_tests"
  , "dlib_download_data"
  , "dlib_reproduce_jmlr"
  , "dlib_reproduce_semi_supervised"
  , "dlib_reproduce_weakly_supervised"
  , "dlib_train_semi_supervised"
  , "dlib_train_weakly_supervised" ]

/-- Modelled from the spec: the executable files present under `bin/` of
the source tree at packaging time. The `bin/` directory itself is not
part of the provided source; the spec states that the installed console
scripts are exactly the 16 named entry points and that every path listed
under the script collection resolves to an existing executable, so the
tree is modelled as holding one executable `bin/<name>` per spec-listed
console-script name. -/
def binExecutables : List String :=
  specConsoleScriptNames.map (fun n => "bin/" ++ n)

/-- C1: every spec-listed console-script name `n` has `bin/<n>` in the
`scripts` list passed to `setup`, and every element of that list is
`bin/<n>` for one of the 16 spec-listed names. -/
theorem scripts_match_spec_names :
    (specConsoleScriptNames.all (fun n => scripts.contains ("bin/" ++ n)) = true)
    ∧ (scripts.all (fun s => specConsoleScriptNames.any (fun n => s == "bin/" ++ n)) = true) := by
  decide

/-- C2: every string in `install_requires` is an exact `name==version`
pin, and the list pins numpy to 1.16.3, pandas to 0.24.2, scikit-learn
to 0.20.3, tensorflow-hub to 0.4.0 and tensorflow_probability to 0.7.0. -/
theorem install_requires_all_exact_pins :
    (install_requires.all isExactPin = true)
    ∧ install_requires.contains "numpy==1.16.3" = true
    ∧ install_requires.contains "pandas==0.24.2" = true
    ∧ install_requires.contains "scikit-learn==0.20.3" = true
    ∧ install_requires.contains "tensorflow-hub==0.4.0" = true
    ∧ install_requires.contains "tensorflow_probability==0.7.0" = true := by
  decide

/-- C3: the `extras_require` mapping has exactly the keys `tf` and
`tf_gpu`, with `tf` mapping to the single requirement `tensorflow==1.14`
and `tf_gpu` to the single requirement `tensorflow-gpu==1.14`. -/
theorem extras_require_tf_choice :
    extras_require.map Prod.fst = ["tf", "tf_gpu"]
    ∧ extras_require.lookup "tf" = some ["tensorflow==1.14"]
    ∧ extras_require.lookup "tf_gpu" = some ["tensorflow-gpu==1.14"] := by
  decide

/-- C4: some dependency string declared by the `setup` call (in
`install_requires` or in a value of `extras_require`) names the package
`tensorflow`. -/
theorem tensorflow_among_declared_deps :
    allDeclaredDeps.any (fun s => pinName s == some "tensorflow") = true := by
  decide

/-- C5: the `name`, `version` and `license` metadata fields are the
non-empty strings `disentanglement_lib`, `1.5` and `Apache 2.0`. -/
theorem metadata_fields_nonempty :
    packageName = "disentanglement_lib" ∧ 0 < packageName.length
    ∧ version = "1.5" ∧ 0 < version.length
    ∧ license = "Apache 2.0" ∧ 0 < license.length := by
  decide

/-- C6: every path in the `scripts` list is one of the executables
present under `bin/` of the source tree at packaging time. -/
theorem scripts_resolve_to_bin_executables :
    scripts.all (fun s => binExecutables.contains s) = true := by
  decide

/-- C7: the descriptor is deterministic: the name, version, license,
scripts list, dependency list, extras and classifiers of the manifest
do not depend on the environment input (only the `packages` field,
computed by `find_packages()`, does). -/
theorem manifest_deterministic :
    (fun pkgs => (manifest pkgs).name) = (fun _ => packageName)
    ∧ (fun pkgs => (manifest pkgs).version) = (fun _ => version)
    ∧ (fun pkgs => (manifest pkgs).license) = (fun _ => license)
    ∧ (fun pkgs => (manifest pkgs).scripts) = (fun _ => scripts)
    ∧ (fun pkgs => (manifest pkgs).install_requires) = (fun _ => install_requires)
    ∧ (fun pkgs => (manifest pkgs).extras_require) = (fun _ => extras_require)
    ∧ (fun pkgs => (manifest pkgs).classifiers) = (fun _ => classifiers) :=
  ⟨rfl, rfl, rfl, rfl, rfl, rfl, rfl⟩

/-- C8, counterexample: `bin/dlib_visualize_dataset` does not occur at
position 10 of the `scripts` list: under 1-based numbering position 10
(index 9) holds `bin/dlib_visualize_model`, and under 0-based numbering
position 10 holds `bin/dlib_tests`. -/
theorem visualize_dataset_not_at_position_ten :
    scripts.get? 9 = some "bin/dlib_visualize_model"
    ∧ scripts.get? 10 = some "bin/dlib_tests"
    ∧ scripts.get? 9 ≠ some "bin/dlib_visualize_dataset"
    ∧ scripts.get? 10 ≠ some "bin/dlib_visualize_dataset" := by
  decide

/-- C8, amended: the `scripts` list has 17 elements, the path
`bin/dlib_visualize_dataset` occurs exactly twice (1-based positions 4
and 9, i.e. indices 3 and 8), every other path occurs exactly once, and
the list has only 16 distinct paths. -/
theorem scripts_duplicate_visualize_dataset :
    scripts.length = 17
    ∧ scripts.count "bin/dlib_visualize_dataset" = 2
    ∧ scripts.get? 3 = some "bin/dlib_visualize_dataset"
    ∧ scripts.get? 8 = some "bin/dlib_visualize_dataset"
    ∧ (scripts.all
        (fun s => s == "bin/dlib_visualize_dataset" || scripts.count s == 1) = true)
    ∧ scripts.dedup.length = 16 := by
  decide

/-- C9: every element of the `scripts` list starts with `bin/dlib_`. -/
theorem scripts_all_under_bin_dlib :
    scripts.all (fun s => List.isPrefixOf "bin/dlib_".data s.data) = true := by
  decide

/-- C10: no string in `install_requires` names the `tensorflow` or
`tensorflow-gpu` package, and both extras pin TensorFlow to exactly
version 1.14. -/
theorem tensorflow_only_via_extras :
    (install_requires.all
      (fun s => !(pinName s == some "tensorflow")
        && !(pinName s == some "tensorflow-gpu")) = true)
    ∧ extras_require.lookup "tf" = some ["tensorflow==1.14"]
    ∧ extras_require.lookup "tf_gpu" = some ["tensorflow-gpu==1.14"] := by
  decide

end DisentanglementLib
